import Mathlib

/-!
Verification of the task-management backend core: the data model
(`app/models`), request schemas (`app/schemas`), and the service layer
(`app/services/task_service.py`, `app/services/auth_service.py`) together
with the API handlers in `app/api/v1` that drive them.  The persistent
store is embedded as an explicit list of rows threaded through each
operation; timestamps are naturals.
-/

namespace TaskMgmt

/-! ## Data model -/

/-- `TaskStatus` enum from `app/schemas/task.py` / `app/models/task.py`:
the closed vocabulary {pending, in-progress, completed}. -/
inductive TaskStatus
  | pending
  | in_progress
  | completed
deriving DecidableEq, Repr

/-- The `.value` string of each `TaskStatus` member, as stored in the
`status` string column. -/
def TaskStatus.value : TaskStatus → String
  | .pending => "pending"
  | .in_progress => "in-progress"
  | .completed => "completed"

/-- `TaskPriority` enum: the closed vocabulary {low, medium, high}. -/
inductive TaskPriority
  | low
  | medium
  | high
deriving DecidableEq, Repr

/-- The `.value` string of each `TaskPriority` member, as stored in the
`priority` string column. -/
def TaskPriority.value : TaskPriority → String
  | .low => "low"
  | .medium => "medium"
  | .high => "high"

/-- A row of the `tasks` table (`app/models/task.py`).  `status` and
`priority` are stored as strings, exactly as in the SQLAlchemy model
(`Column(String)`); timestamps are naturals standing for instants. -/
structure Task where
  id : Nat
  title : String
  description : Option String
  status : String
  priority : String
  due_date : Option Nat
  user_id : Nat
  created_at : Nat
  updated_at : Nat
deriving DecidableEq, Repr

/-- A row of the `users` table (`app/models/user.py`). -/
structure User where
  id : Nat
  email : String
  username : String
  hashed_password : String
  created_at : Nat
deriving DecidableEq, Repr

/-! ## Request schemas (`app/schemas`) -/

/-- `TaskCreate` (= `TaskBase`) from `app/schemas/task.py`: `title` is the
only required field; `status` defaults to pending and `priority` to medium
when omitted, exactly as in the pydantic schema. -/
structure TaskCreate where
  title : String
  description : Option String := none
  status : TaskStatus := .pending
  priority : TaskPriority := .medium
  due_date : Option Nat := none
deriving DecidableEq, Repr

/-- `TaskUpdate` from `app/schemas/task.py`: every field optional; a
`none` field is unset and is dropped by `model_dump(exclude_unset=True)`
in `TaskService.update_task`. -/
structure TaskUpdate where
  title : Option String := none
  description : Option String := none
  status : Option TaskStatus := none
  priority : Option TaskPriority := none
  due_date : Option Nat := none
deriving DecidableEq, Repr

/-- Raw registration payload before pydantic validation runs
(`email`, `username`, `password` of `UserCreate`). -/
structure UserCreateInput where
  email : String
  username : String
  password : String
deriving DecidableEq, Repr

/-- A validated `UserCreate` (`app/schemas/user.py`). -/
structure UserCreate where
  email : String
  username : String
  password : String
deriving DecidableEq, Repr

/-- `UserCreate.validate_password`: rejects length < 6 and length > 72,
with the exact messages of `app/schemas/user.py`. -/
def validate_password (v : String) : Except String String :=
  if v.length < 6 then
    .error "Password must be at least 6 characters long"
  else if v.length > 72 then
    .error "Password must be no more than 72 characters long"
  else
    .ok v

/-- `UserCreate.validate_username`: rejects length < 2 and length > 50,
with the exact messages of `app/schemas/user.py`. -/
def validate_username (v : String) : Except String String :=
  if v.length < 2 then
    .error "Username must be at least 2 characters long"
  else if v.length > 50 then
    .error "Username must be no more than 50 characters long"
  else
    .ok v

/-- Pydantic validation of a `UserCreate` payload: runs both field
validators and reports every failing field as a (field, message) pair, in
field-declaration order (username before password).  The `EmailStr`
format check on `email` is orthogonal to the length claims and elided. -/
def UserCreate.validate (i : UserCreateInput) :
    Except (List (String × String)) UserCreate :=
  let errs :=
    (match validate_username i.username with
      | .error m => [("username", m)]
      | .ok _ => []) ++
    (match validate_password i.password with
      | .error m => [("password", m)]
      | .ok _ => [])
  if errs.isEmpty then .ok ⟨i.email, i.username, i.password⟩
  else .error errs

/-! ## Task service (`app/services/task_service.py`)

The SQLAlchemy session is embedded as the list of rows of the `tasks`
table, returned updated by each mutating operation. -/

/-- Python truthiness of an `Optional[str]`: `None` and `""` are falsy,
any other string is truthy.  `get_user_tasks` guards each filter with
`if status_filter:` / `if priority_filter:`. -/
def truthy : Option String → Bool
  | none => false
  | some s => s ≠ ""

/-- Insert a task into a list kept in descending `created_at` order. -/
def insertByCreatedDesc (t : Task) : List Task → List Task
  | [] => [t]
  | u :: us =>
    if u.created_at ≤ t.created_at then t :: u :: us
    else u :: insertByCreatedDesc t us

/-- `query.order_by(Task.created_at.desc())`: sort the selected rows by
creation time, newest first. -/
def orderByCreatedDesc : List Task → List Task
  | [] => []
  | t :: ts => insertByCreatedDesc t (orderByCreatedDesc ts)

/-- `TaskService.get_user_tasks`: filter by `user_id`, then by status and
priority when those filters are truthy, then order by `created_at`
descending. -/
def get_user_tasks (db : List Task) (user_id : Nat)
    (status_filter : Option String := none)
    (priority_filter : Option String := none) : List Task :=
  let q := db.filter (fun t => t.user_id == user_id)
  let q := if truthy status_filter then
             q.filter (fun t => t.status == status_filter.getD "")
           else q
  let q := if truthy priority_filter then
             q.filter (fun t => t.priority == priority_filter.getD "")
           else q
  orderByCreatedDesc q

/-- `TaskService.get_task_by_id`: `filter(Task.id == task_id,
Task.user_id == user_id).first()` — the first row matching both the id
and the owner. -/
def get_task_by_id (db : List Task) (task_id user_id : Nat) : Option Task :=
  db.find? (fun t => t.id == task_id && t.user_id == user_id)

/-- `TaskService.create_task`: builds a row from the `TaskCreate` payload
with `user_id` taken from the `user_id` argument (the resolved identity),
commits it.  `fresh_id` is the primary key the store assigns and `now`
the commit instant (`created_at`/`updated_at` server defaults). -/
def create_task (db : List Task) (task_data : TaskCreate)
    (user_id fresh_id now : Nat) : Task × List Task :=
  let db_task : Task :=
    { id := fresh_id
      title := task_data.title
      description := task_data.description
      status := task_data.status.value
      priority := task_data.priority.value
      due_date := task_data.due_date
      user_id := user_id
      created_at := now
      updated_at := now }
  (db_task, db ++ [db_task])

/-- A raised Python exception, surfaced through `Except`. -/
inductive PyError
  | nameError (name : String)
  | integrityError
deriving DecidableEq, Repr

/-- `TaskService.update_task`.  After the ownership check succeeds the
method body executes the stray bare statement `s` (the line between
`return None` and `update_data = task_data.model_dump(...)` in
`app/services/task_service.py`), and `s` is an unbound name: Python
raises `NameError` there, before any field is applied and before any
commit.  When the ownership check fails the method returns `None` with
the store untouched. -/
def update_task (db : List Task) (task_id : Nat) (task_data : TaskUpdate)
    (user_id now : Nat) : Except PyError (Option Task × List Task) :=
  match get_task_by_id db task_id user_id with
  | none => .ok (none, db)
  | some _ => .error (.nameError "s")

/-- `TaskService.delete_task`: resolves via `get_task_by_id`; `False` and
an unchanged store when that returns `None`, otherwise the row is deleted
(the store drops the rows carrying the primary key of the found task) and the
method returns `True`. -/
def delete_task (db : List Task) (task_id user_id : Nat) :
    Bool × List Task :=
  match get_task_by_id db task_id user_id with
  | none => (false, db)
  | some t => (true, db.filter (fun u => u.id ≠ t.id))

/-! ## Auth service (`app/services/auth_service.py`) and the
`app/api/v1/auth.py` handlers -/

/-- `AuthService.get_user_by_email`: `filter(User.email == email).first()`. -/
def get_user_by_email (db : List User) (email : String) : Option User :=
  db.find? (fun u => u.email == email)

/-- `session.commit()` of a freshly added `User` row: the storage layer
enforces the unique constraint on `users.email` and rejects the insert
with `IntegrityError` when the email is already present. -/
def db_insert_user (db : List User) (u : User) :
    Except PyError (List User) :=
  if db.any (fun v => v.email == u.email) then .error .integrityError
  else .ok (db ++ [u])

/-- `AuthService.create_user`: hashes the password with the caller-side
hash function (`get_password_hash` from `app/core/security.py`, passed in
abstractly) and commits the new row.  There is no `try/except` around the
commit: a storage-layer `IntegrityError` propagates unchanged. -/
def create_user (hash : String → String) (db : List User)
    (user_data : UserCreate) (fresh_id now : Nat) :
    Except PyError (User × List User) :=
  let hashed_password := hash user_data.password
  let db_user : User :=
    { id := fresh_id
      email := user_data.email
      username := user_data.username
      hashed_password := hashed_password
      created_at := now }
  match db_insert_user db db_user with
  | .error e => .error e
  | .ok db2 => .ok (db_user, db2)

/-- `AuthService.authenticate_user`: look up by email; absent user and
failed password verification both return `None`.  `verify` stands for
`verify_password` from `app/core/security.py`, passed in abstractly. -/
def authenticate_user (verify : String → String → Bool) (db : List User)
    (email password : String) : Option User :=
  match get_user_by_email db email with
  | none => none
  | some user =>
    if verify password user.hashed_password then some user else none

/-- Outcome of the `register` endpoint.  `duplicateEmail` is the
`HTTPException 400 "Email already registered"` raised by the handler;
`internalError` is an exception that escapes the handler unhandled. -/
inductive RegisterError
  | duplicateEmail
  | internalError (e : PyError)
deriving DecidableEq, Repr

/-- The `register` handler of `app/api/v1/auth.py`: the duplicate
pre-check reads the store as it stands at check time (`db`); rows that
other, concurrent registrations commit between the check and the
insert of this request are `concurrent`, so the insert itself runs against
`db ++ concurrent`.  No handler catches a storage failure from
`create_user`, so it escapes as `internalError`. -/
def register (hash : String → String) (db concurrent : List User)
    (user_data : UserCreate) (fresh_id now : Nat) :
    Except RegisterError (User × List User) :=
  match get_user_by_email db user_data.email with
  | some _ => .error .duplicateEmail
  | none =>
    match create_user hash (db ++ concurrent) user_data fresh_id now with
    | .error e => .error (.internalError e)
    | .ok r => .ok r

/-- Outcome of the `register` endpoint including request-body validation,
which FastAPI/pydantic runs before the handler body. -/
inductive RegisterOutcome
  | created (u : User) (db2 : List User)
  | validationFailure (errs : List (String × String))
  | duplicateEmail
  | internalError (e : PyError)
deriving DecidableEq, Repr

/-- The full registration pipeline: pydantic validates the raw payload
first (so an invalid payload never reaches `create_user`, hence is never
hashed), then the `register` handler runs. -/
def register_endpoint (hash : String → String) (db concurrent : List User)
    (raw : UserCreateInput) (fresh_id now : Nat) : RegisterOutcome :=
  match UserCreate.validate raw with
  | .error errs => .validationFailure errs
  | .ok user_data =>
    match register hash db concurrent user_data fresh_id now with
    | .error .duplicateEmail => .duplicateEmail
    | .error (.internalError e) => .internalError e
    | .ok (u, db2) => .created u db2

/-- Outcome of the `login` handler of `app/api/v1/auth.py`:
`authFailure` is the single `HTTPException 401 "Incorrect email or
password"` raised whenever `authenticate_user` returns `None`. -/
inductive LoginResult
  | token (t : String)
  | authFailure
deriving DecidableEq, Repr

/-- The `login` handler: authenticate, then mint a token for the user
id (`create_token`, abstracted as `mkToken`); every authentication
failure maps to the one `authFailure` outcome. -/
def login (verify : String → String → Bool) (mkToken : Nat → String)
    (db : List User) (email password : String) : LoginResult :=
  match authenticate_user verify db email password with
  | none => .authFailure
  | some u => .token (mkToken u.id)

/-- The sublist of a task store owned by one user — the observable that
ownership scoping protects. -/
def ownedBy (db : List Task) (uid : Nat) : List Task :=
  db.filter (fun t => t.user_id == uid)

/-! ## Sample rows used by the concrete witnesses -/

/-- A pending low-priority task of user 1, created at instant 10. -/
def sampleTask1 : Task :=
  { id := 1, title := "A", description := none, status := "pending",
    priority := "low", due_date := none, user_id := 1,
    created_at := 10, updated_at := 10 }

/-- A pending medium-priority task of user 1, created at instant 20. -/
def sampleTask2 : Task :=
  { id := 2, title := "B", description := none, status := "pending",
    priority := "medium", due_date := none, user_id := 1,
    created_at := 20, updated_at := 20 }

/-- A completed task of user 1, created at instant 30. -/
def sampleTask3 : Task :=
  { id := 3, title := "C", description := none, status := "completed",
    priority := "high", due_date := none, user_id := 1,
    created_at := 30, updated_at := 30 }

/-- A pending task of user 2, created at instant 40. -/
def sampleTask4 : Task :=
  { id := 4, title := "D", description := none, status := "pending",
    priority := "low", due_date := none, user_id := 2,
    created_at := 40, updated_at := 40 }

/-- A four-row task store shared by users 1 and 2. -/
def sampleDb : List Task := [sampleTask1, sampleTask2, sampleTask3, sampleTask4]

/-- A registered user row. -/
def sampleUser : User :=
  { id := 1, email := "alice@example.com", username := "alice",
    hashed_password := "bcrypt-digest", created_at := 0 }

/-! ## Helper lemmas -/

/-- Inserting into the descending order is a permutation of consing. -/
theorem insertByCreatedDesc_perm (t : Task) (l : List Task) :
    (insertByCreatedDesc t l).Perm (t :: l) := by
  induction l with
  | nil => exact .refl _
  | cons u us ih =>
    simp only [insertByCreatedDesc]
    split
    · exact .refl _
    · exact (ih.cons u).trans (List.Perm.swap t u us)

/-- `orderByCreatedDesc` permutes its input. -/
theorem orderByCreatedDesc_perm (l : List Task) :
    (orderByCreatedDesc l).Perm l := by
  induction l with
  | nil => exact .refl _
  | cons t ts ih =>
    exact (insertByCreatedDesc_perm t (orderByCreatedDesc ts)).trans (ih.cons t)

/-- Membership is preserved by `orderByCreatedDesc`. -/
theorem mem_orderByCreatedDesc {t : Task} {l : List Task} :
    t ∈ orderByCreatedDesc l ↔ t ∈ l :=
  (orderByCreatedDesc_perm l).mem_iff

/-- Insertion preserves descending sortedness by `created_at`. -/
theorem insertByCreatedDesc_sorted {l : List Task}
    (h : l.Sorted (fun a b => b.created_at ≤ a.created_at)) (t : Task) :
    (insertByCreatedDesc t l).Sorted (fun a b => b.created_at ≤ a.created_at) := by
  induction l with
  | nil => simp [insertByCreatedDesc]
  | cons u us ih =>
    simp only [insertByCreatedDesc]
    split
    · refine List.Pairwise.cons ?_ h
      intro b hb
      rcases List.mem_cons.mp hb with rfl | hb
      · assumption
      · exact le_trans (List.rel_of_sorted_cons h b hb) (by assumption)
    · refine List.Pairwise.cons ?_ (ih (List.Pairwise.of_cons h))
      intro b hb
      have hb2 : b ∈ t :: us :=
        (insertByCreatedDesc_perm t us).mem_iff.mp hb
      rcases List.mem_cons.mp hb2 with rfl | hb2
      · omega
      · exact List.rel_of_sorted_cons h b hb2

/-- `orderByCreatedDesc` yields a list sorted by creation time, newest
first. -/
theorem orderByCreatedDesc_sorted (l : List Task) :
    (orderByCreatedDesc l).Sorted (fun a b => b.created_at ≤ a.created_at) := by
  induction l with
  | nil => simp [orderByCreatedDesc]
  | cons t ts ih => exact insertByCreatedDesc_sorted ih t

/-- `get_user_tasks` computes the descending ordering of a one-pass
filter combining the owner filter with the two optional value filters. -/
theorem get_user_tasks_eq (db : List Task) (uid : Nat)
    (sf pf : Option String) :
    get_user_tasks db uid sf pf =
      orderByCreatedDesc (db.filter (fun t => t.user_id == uid &&
        (!truthy sf || t.status == sf.getD "") &&
        (!truthy pf || t.priority == pf.getD ""))) := by
  unfold get_user_tasks
  cases hs : truthy sf <;> cases hp : truthy pf
  · simp only [Bool.false_eq_true, if_false, Bool.not_false, Bool.true_or,
      Bool.and_true]
  · simp only [Bool.false_eq_true, if_false, if_true, Bool.not_false,
      Bool.not_true, Bool.true_or, Bool.false_or, Bool.and_true,
      List.filter_filter]
    refine congrArg _ (List.filter_congr fun x _ => ?_)
    cases hu : x.user_id == uid <;>
      cases h3 : x.priority == pf.getD "" <;> simp [hu, h3]
  · simp only [Bool.false_eq_true, if_false, if_true, Bool.not_false,
      Bool.not_true, Bool.true_or, Bool.false_or, Bool.and_true,
      List.filter_filter]
    refine congrArg _ (List.filter_congr fun x _ => ?_)
    cases hu : x.user_id == uid <;>
      cases h2 : x.status == sf.getD "" <;> simp [hu, h2]
  · simp only [if_true, Bool.not_true, Bool.false_or, List.filter_filter]
    refine congrArg _ (List.filter_congr fun x _ => ?_)
    cases hu : x.user_id == uid <;>
      cases h2 : x.status == sf.getD "" <;>
        cases h3 : x.priority == pf.getD "" <;> simp [hu, h2, h3]

/-- `get_user_tasks` is a permutation of that one-pass filter. -/
theorem get_user_tasks_perm (db : List Task) (uid : Nat)
    (sf pf : Option String) :
    (get_user_tasks db uid sf pf).Perm
      (db.filter (fun t => t.user_id == uid &&
        (!truthy sf || t.status == sf.getD "") &&
        (!truthy pf || t.priority == pf.getD ""))) := by
  rw [get_user_tasks_eq]
  exact orderByCreatedDesc_perm _

/-- Membership characterization of `get_user_tasks`. -/
theorem mem_get_user_tasks {db : List Task} {uid : Nat}
    {sf pf : Option String} {t : Task} :
    t ∈ get_user_tasks db uid sf pf ↔
      t ∈ db ∧ t.user_id = uid ∧
        (truthy sf → t.status = sf.getD "") ∧
        (truthy pf → t.priority = pf.getD "") := by
  rw [(get_user_tasks_perm db uid sf pf).mem_iff, List.mem_filter]
  cases hs : truthy sf <;> cases hp : truthy pf <;>
    simp [hs, hp, and_assoc]

/-! ## Claims -/

/-- C4: `get(task_id, owner_id)` returns the task exactly when a task
with that id exists and its owning user id equals `owner_id`, and `none`
otherwise; the `none` for a task owned by another user is the same
observable result as the `none` for an absent task. -/
theorem C4_get_scoped_by_owner (db : List Task) (task_id user_id : Nat) :
    (∀ t, get_task_by_id db task_id user_id = some t →
      t ∈ db ∧ t.id = task_id ∧ t.user_id = user_id) ∧
    ((∃ t ∈ db, t.id = task_id ∧ t.user_id = user_id) ↔
      (get_task_by_id db task_id user_id).isSome) ∧
    ((¬ ∃ t ∈ db, t.id = task_id ∧ t.user_id = user_id) →
      get_task_by_id db task_id user_id = none) := by
  unfold get_task_by_id
  refine ⟨?_, ?_, ?_⟩
  · intro t ht
    have hp := List.find?_some ht
    simp only [Bool.and_eq_true, beq_iff_eq] at hp
    exact ⟨List.mem_of_find?_eq_some ht, hp.1, hp.2⟩
  · rw [List.find?_isSome]
    constructor
    · rintro ⟨t, htm, h1, h2⟩
      exact ⟨t, htm, by simp [h1, h2]⟩
    · rintro ⟨t, htm, hp⟩
      simp only [Bool.and_eq_true, beq_iff_eq] at hp
      exact ⟨t, htm, hp.1, hp.2⟩
  · intro h
    rw [List.find?_eq_none]
    intro t htm hp
    simp only [Bool.and_eq_true, beq_iff_eq] at hp
    exact h ⟨t, htm, hp.1, hp.2⟩

/-- Witness for C4 at a concrete store: asking for task 4 (owned by
user 2) under the identity of user 1 yields `none`, the same observable as a
missing task. -/
theorem C4_get_scoped_by_owner_witness :
    get_task_by_id sampleDb 4 1 = none :=
  (C4_get_scoped_by_owner sampleDb 4 1).2.2 (by decide)

/-- C5: `create` records the resolved identity as owner for every
payload (the payload carries no owner field), keeps the required title,
appends exactly one row, and defaults status to pending and priority to
medium when those fields are omitted. -/
theorem C5_create_task_owner_and_defaults (db : List Task)
    (task_data : TaskCreate) (user_id fresh_id now : Nat) (ti : String) :
    (create_task db task_data user_id fresh_id now).1.user_id = user_id ∧
    (create_task db task_data user_id fresh_id now).1.title =
      task_data.title ∧
    (create_task db task_data user_id fresh_id now).2 =
      db ++ [(create_task db task_data user_id fresh_id now).1] ∧
    ({ title := ti } : TaskCreate).status = TaskStatus.pending ∧
    ({ title := ti } : TaskCreate).priority = TaskPriority.medium ∧
    (create_task db { title := ti } user_id fresh_id now).1.status =
      "pending" ∧
    (create_task db { title := ti } user_id fresh_id now).1.priority =
      "medium" :=
  ⟨rfl, rfl, rfl, rfl, rfl, rfl, rfl⟩

/-- C10: an empty-string status or priority filter is falsy in the
`if status_filter:` / `if priority_filter:` guards, so it imposes no
restriction — the result equals the call with the filter absent. -/
theorem C10_empty_string_filter_is_no_filter (db : List Task) (uid : Nat)
    (sf pf : Option String) :
    get_user_tasks db uid (some "") pf = get_user_tasks db uid none pf ∧
    get_user_tasks db uid sf (some "") = get_user_tasks db uid sf none := by
  constructor <;> unfold get_user_tasks <;> rfl

/-- C2 (code bug): updating a task the caller owns never succeeds — the
method body of `TaskService.update_task` contains the stray bare
statement `s` right after the ownership check, and evaluating the
unbound name `s` raises `NameError` before any field is applied; here
task 1 exists and is owned by user 1, yet the update crashes instead of
applying the status change. -/
theorem C2_update_task_crashes_on_owned_task :
    (get_task_by_id [sampleTask1] 1 1).isSome = true ∧
    update_task [sampleTask1] 1 { status := some TaskStatus.completed }
        1 99 = .error (.nameError "s") := by
  exact ⟨rfl, rfl⟩

/-- An optional filter guard, read as a condition on the supplied
string: `truthy f → g (f.getD "")` says `g` holds of the filter value
whenever the filter is a non-empty string. -/
theorem truthy_imp_iff (f : Option String) (g : String → Prop) :
    ((truthy f = true → g (f.getD "")) ↔
      ∀ s, f = some s → s ≠ "" → g s) := by
  cases f with
  | none => simp [truthy]
  | some s => by_cases hs : s = "" <;> simp [truthy, hs]

/-- C7: `list` returns exactly the tasks of the caller, narrowed by
exact-match status/priority when a non-empty filter is supplied, in
descending creation-time order; absent filters impose no restriction and
an unrecognized filter value matches nothing without raising. -/
theorem C7_list_scoped_filtered_ordered (db : List Task) (uid : Nat)
    (sf pf : Option String) :
    (∀ t, t ∈ get_user_tasks db uid sf pf ↔
      t ∈ db ∧ t.user_id = uid ∧
        (∀ s, sf = some s → s ≠ "" → t.status = s) ∧
        (∀ s, pf = some s → s ≠ "" → t.priority = s)) ∧
    (get_user_tasks db uid sf pf).Perm
      (db.filter (fun t => t.user_id == uid &&
        (!truthy sf || t.status == sf.getD "") &&
        (!truthy pf || t.priority == pf.getD ""))) ∧
    (get_user_tasks db uid sf pf).Sorted
      (fun a b => b.created_at ≤ a.created_at) ∧
    (get_user_tasks db uid none none).Perm
      (db.filter (fun t => t.user_id == uid)) ∧
    (∀ s, s ≠ "" →
      s ∉ (["pending", "in-progress", "completed"] : List String) →
      (∀ t ∈ db,
        t.status ∈ (["pending", "in-progress", "completed"] : List String)) →
      get_user_tasks db uid (some s) pf = []) := by
  refine ⟨?_, get_user_tasks_perm db uid sf pf, ?_, ?_, ?_⟩
  · intro t
    rw [mem_get_user_tasks]
    rw [truthy_imp_iff sf (fun v => t.status = v)]
    rw [truthy_imp_iff pf (fun v => t.priority = v)]
  · rw [get_user_tasks_eq]
    exact orderByCreatedDesc_sorted _
  · refine (get_user_tasks_perm db uid none none).trans (List.Perm.of_eq ?_)
    refine List.filter_congr fun x _ => ?_
    simp [truthy]
  · intro s hs hvoc hdb
    rw [get_user_tasks_eq]
    have hnil : db.filter (fun t => t.user_id == uid &&
        (!truthy (some s) || t.status == (some s).getD "") &&
        (!truthy pf || t.priority == pf.getD "")) = [] := by
      rw [List.filter_eq_nil_iff]
      intro t htm
      have hts : t.status ≠ s := by
        intro he
        exact hvoc (he ▸ hdb t htm)
      simp [truthy, hs, hts]
    rw [hnil]
    rfl

/-- Witness for C7 at a concrete store: a non-empty status filter whose
value is outside the status vocabulary selects nothing and raises no
error. -/
theorem C7_list_scoped_filtered_ordered_witness :
    get_user_tasks sampleDb 1 (some "archived") none = [] :=
  (C7_list_scoped_filtered_ordered sampleDb 1 (some "archived")
    none).2.2.2.2 "archived" (by decide) (by decide) (by decide)

/-- C1: every task-repository operation applies the resolved
identity `u1` as a hard filter, so no call returns or mutates a row
owned by a different user `u2` — even when handed the exact id of one of
`u2` tasks. -/
theorem C1_ownership_hard_filter (db : List Task) (u1 u2 : Nat)
    (sf pf : Option String) (tid : Nat) (tc : TaskCreate) (tu : TaskUpdate)
    (fid now : Nat) (hne : u1 ≠ u2)
    (hids : (db.map Task.id).Nodup) :
    (∀ t ∈ get_user_tasks db u1 sf pf, t.user_id ≠ u2) ∧
    (∀ t, get_task_by_id db tid u1 = some t → t.user_id ≠ u2) ∧
    ((create_task db tc u1 fid now).1.user_id ≠ u2 ∧
      ownedBy (create_task db tc u1 fid now).2 u2 = ownedBy db u2) ∧
    (∀ t db2, update_task db tid tu u1 now = .ok (some t, db2) →
      t.user_id ≠ u2) ∧
    (∀ r db2, update_task db tid tu u1 now = .ok (r, db2) →
      ownedBy db2 u2 = ownedBy db u2) ∧
    ownedBy (delete_task db tid u1).2 u2 = ownedBy db u2 := by
  refine ⟨?_, ?_, ⟨hne, ?_⟩, ?_, ?_, ?_⟩
  · intro t ht he
    have h1 : t.user_id = u1 := (mem_get_user_tasks.mp ht).2.1
    exact hne (h1 ▸ he)
  · intro t ht he
    have hp := List.find?_some ht
    simp only [Bool.and_eq_true, beq_iff_eq] at hp
    exact hne (hp.2 ▸ he)
  · have hb : (u1 == u2) = false := beq_eq_false_iff_ne.mpr hne
    simp [ownedBy, create_task, List.filter_append, hb]
  · intro t db2 h
    unfold update_task at h
    cases hget : get_task_by_id db tid u1 <;> rw [hget] at h <;> simp at h
  · intro r db2 h
    unfold update_task at h
    cases hget : get_task_by_id db tid u1 <;> rw [hget] at h
    · simp at h
      rw [← h.2]
    · simp at h
  · unfold delete_task
    cases hget : get_task_by_id db tid u1 with
    | none => rfl
    | some t =>
      have hp := List.find?_some hget
      simp only [Bool.and_eq_true, beq_iff_eq] at hp
      have htm := List.mem_of_find?_eq_some hget
      show ownedBy (db.filter fun u => u.id ≠ t.id) u2 = ownedBy db u2
      unfold ownedBy
      rw [List.filter_filter]
      refine List.filter_congr fun x hx => ?_
      cases hu : x.user_id == u2 with
      | false => simp
      | true =>
        have hxne : x.id ≠ t.id := by
          intro hxid
          have hxt : x = t :=
            List.inj_on_of_nodup_map hids hx htm hxid
          have : u2 = u1 := by
            rw [← beq_iff_eq.mp hu, hxt, hp.2]
          exact hne this.symm
        simp [hxne]

/-- Witness for C1 at a concrete store: user 1 deleting with the exact
id of a task of user 2 leaves the tasks of user 2 untouched. -/
theorem C1_ownership_hard_filter_witness :
    ownedBy (delete_task sampleDb 4 1).2 2 = ownedBy sampleDb 2 :=
  (C1_ownership_hard_filter sampleDb 1 2 none none 4 { title := "x" } {}
    9 9 (by decide) (by decide)).2.2.2.2.2

/-- C8: `delete` returns false with the store unchanged when `get`
resolves nothing (task absent or foreign-owned), returns true after a
successful removal, and a subsequent `get` of the deleted task returns
`none` — the same observable as `get` on a task never owned by the
caller. -/
theorem C8_delete_then_get (db : List Task) (tid uid : Nat) :
    (get_task_by_id db tid uid = none →
      delete_task db tid uid = (false, db)) ∧
    (∀ t, get_task_by_id db tid uid = some t →
      (delete_task db tid uid).1 = true ∧
      get_task_by_id (delete_task db tid uid).2 tid uid = none) ∧
    ((¬ ∃ t ∈ db, t.id = tid ∧ t.user_id = uid) →
      get_task_by_id db tid uid = none) := by
  refine ⟨?_, ?_, ?_⟩
  · intro h
    unfold delete_task
    rw [h]
  · intro t ht
    have hp := List.find?_some ht
    simp only [Bool.and_eq_true, beq_iff_eq] at hp
    unfold delete_task
    rw [ht]
    refine ⟨rfl, ?_⟩
    show get_task_by_id (db.filter fun u => u.id ≠ t.id) tid uid = none
    unfold get_task_by_id
    rw [List.find?_eq_none]
    intro x hx hpx
    have hxne : x.id ≠ t.id := of_decide_eq_true (List.mem_filter.mp hx).2
    simp only [Bool.and_eq_true, beq_iff_eq] at hpx
    exact hxne (hpx.1.trans hp.1.symm)
  · intro h
    unfold get_task_by_id
    rw [List.find?_eq_none]
    intro x hx hpx
    simp only [Bool.and_eq_true, beq_iff_eq] at hpx
    exact h ⟨x, hx, hpx.1, hpx.2⟩

/-- Witness for C8 at a concrete store: deleting task 1 for its owner
returns true, and getting it afterwards returns `none`. -/
theorem C8_delete_then_get_witness :
    (delete_task sampleDb 1 1).1 = true ∧
    get_task_by_id (delete_task sampleDb 1 1).2 1 1 = none :=
  (C8_delete_then_get sampleDb 1 1).2.1 sampleTask1 (by decide)

/-- An out-of-range username makes `validate_username` fail. -/
theorem validate_username_error_of {username : String}
    (h : username.length < 2 ∨ 50 < username.length) :
    ∃ m, validate_username username = .error m := by
  unfold validate_username
  rcases h with h | h
  · exact ⟨"Username must be at least 2 characters long", by simp [h]⟩
  · have h2 : ¬ username.length < 2 := by omega
    exact ⟨"Username must be no more than 50 characters long",
      by simp [h2, h]⟩

/-- An out-of-range password makes `validate_password` fail. -/
theorem validate_password_error_of {password : String}
    (h : password.length < 6 ∨ 72 < password.length) :
    ∃ m, validate_password password = .error m := by
  unfold validate_password
  rcases h with h | h
  · exact ⟨"Password must be at least 6 characters long", by simp [h]⟩
  · have h2 : ¬ password.length < 6 := by omega
    exact ⟨"Password must be no more than 72 characters long",
      by simp [h2, h]⟩

/-- A failing username validator surfaces as a `UserCreate.validate`
error naming the `username` field. -/
theorem validate_error_names_username {i : UserCreateInput} {m : String}
    (hm : validate_username i.username = .error m) :
    ∃ errs, UserCreate.validate i = .error errs ∧ ("username", m) ∈ errs := by
  unfold UserCreate.validate
  rw [hm]
  cases hp : validate_password i.password with
  | error m2 => exact ⟨[("username", m), ("password", m2)], rfl, by simp⟩
  | ok v => exact ⟨[("username", m)], rfl, by simp⟩

/-- A failing password validator surfaces as a `UserCreate.validate`
error naming the `password` field. -/
theorem validate_error_names_password {i : UserCreateInput} {m : String}
    (hm : validate_password i.password = .error m) :
    ∃ errs, UserCreate.validate i = .error errs ∧ ("password", m) ∈ errs := by
  unfold UserCreate.validate
  rw [hm]
  cases hu : validate_username i.username with
  | error m2 => exact ⟨[("username", m2), ("password", m)], rfl, by simp⟩
  | ok v => exact ⟨[("password", m)], rfl, by simp⟩

/-- C6: registration validates username length within [2,50] and
password length within [6,72]; an out-of-range field fails with a
validation error naming that field, the boundary values (username length
2, password length 6) pass, and on a validation failure the outcome of
the whole registration pipeline does not depend on the hash function —
nothing is hashed. -/
theorem C6_register_length_validation (email username password : String) :
    (username.length < 2 ∨ 50 < username.length →
      ∃ errs, UserCreate.validate ⟨email, username, password⟩ = .error errs ∧
        ∃ m, ("username", m) ∈ errs) ∧
    (password.length < 6 ∨ 72 < password.length →
      ∃ errs, UserCreate.validate ⟨email, username, password⟩ = .error errs ∧
        ∃ m, ("password", m) ∈ errs) ∧
    (username.length = 2 → password.length = 6 →
      UserCreate.validate ⟨email, username, password⟩ =
        .ok ⟨email, username, password⟩) ∧
    (∀ errs, UserCreate.validate ⟨email, username, password⟩ = .error errs →
      ∀ hash db concurrent fid now,
        register_endpoint hash db concurrent ⟨email, username, password⟩
          fid now = .validationFailure errs) := by
  refine ⟨?_, ?_, ?_, ?_⟩
  · intro h
    obtain ⟨m, hm⟩ := validate_username_error_of h
    obtain ⟨errs, he, hmem⟩ :=
      validate_error_names_username (i := ⟨email, username, password⟩) hm
    exact ⟨errs, he, m, hmem⟩
  · intro h
    obtain ⟨m, hm⟩ := validate_password_error_of h
    obtain ⟨errs, he, hmem⟩ :=
      validate_error_names_password (i := ⟨email, username, password⟩) hm
    exact ⟨errs, he, m, hmem⟩
  · intro h2 h6
    unfold UserCreate.validate validate_username validate_password
    simp [h2, h6]
  · intro errs he hash db concurrent fid now
    unfold register_endpoint
    rw [he]

/-- Witness for C6 at concrete payloads: the boundary values pass, a
length-1 username fails naming `username`, a length-5 password fails
naming `password`. -/
theorem C6_register_length_validation_witness :
    UserCreate.validate ⟨"a@b.c", "ab", "secret"⟩ =
      .ok ⟨"a@b.c", "ab", "secret"⟩ ∧
    (∃ errs, UserCreate.validate ⟨"a@b.c", "a", "secret"⟩ = .error errs ∧
      ∃ m, ("username", m) ∈ errs) ∧
    (∃ errs, UserCreate.validate ⟨"a@b.c", "ab", "pass5"⟩ = .error errs ∧
      ∃ m, ("password", m) ∈ errs) :=
  ⟨(C6_register_length_validation "a@b.c" "ab" "secret").2.2.1
      (by decide) (by decide),
    (C6_register_length_validation "a@b.c" "a" "secret").1
      (Or.inl (by decide)),
    (C6_register_length_validation "a@b.c" "ab" "pass5").2.1
      (Or.inl (by decide))⟩

/-- C3 counterexample: the pre-check runs against a store not yet
holding the email, a concurrent registration commits the email before
the insert of this request, and the storage-layer unique-constraint failure
escapes `create_user` (which has no exception handler) as an unhandled
`IntegrityError` — not as the DuplicateEmail outcome the claim
requires. -/
theorem C3_race_failure_not_surfaced_as_duplicate :
    register (fun p => String.append "bcrypt-" p) [] [sampleUser]
      ⟨"alice@example.com", "alice2", "hunter2"⟩ 2 5 =
      .error (.internalError .integrityError) ∧
    RegisterError.internalError .integrityError ≠
      RegisterError.duplicateEmail := by
  refine ⟨rfl, by decide⟩

/-- C3 amended: `register` fails with DuplicateEmail exactly when the
pre-insert `find_by_email` check finds the email; when the pre-check
passes but the storage-layer unique constraint rejects the insert (a
concurrent registration committed in between), the `IntegrityError`
propagates as an unhandled internal failure instead of being surfaced
as DuplicateEmail; with no duplicate at all, registration succeeds. -/
theorem C3_register_duplicate_handling (hash : String → String)
    (db concurrent : List User) (user_data : UserCreate) (fid now : Nat) :
    (∀ u, get_user_by_email db user_data.email = some u →
      register hash db concurrent user_data fid now =
        .error .duplicateEmail) ∧
    (get_user_by_email db user_data.email = none →
      (db ++ concurrent).any (fun v => v.email == user_data.email) = true →
      register hash db concurrent user_data fid now =
        .error (.internalError .integrityError)) ∧
    (get_user_by_email db user_data.email = none →
      (db ++ concurrent).any (fun v => v.email == user_data.email) = false →
      ∃ u db2, register hash db concurrent user_data fid now =
        .ok (u, db2)) := by
  refine ⟨?_, ?_, ?_⟩
  · intro u hu
    unfold register
    rw [hu]
  · intro hn ha
    unfold register create_user db_insert_user
    rw [hn]
    simp only [ha, if_true]
  · intro hn ha
    unfold register create_user db_insert_user
    rw [hn]
    simp only [ha, Bool.false_eq_true, if_false]
    exact ⟨_, _, rfl⟩

/-- Witness for C3 (amended) at concrete stores: a duplicate caught by
the pre-check yields DuplicateEmail, one caught only by the storage
constraint yields the unhandled internal failure. -/
theorem C3_register_duplicate_handling_witness :
    register (fun p => String.append "bcrypt-" p) [sampleUser] []
      ⟨"alice@example.com", "alice2", "hunter2"⟩ 2 5 =
      .error .duplicateEmail ∧
    register (fun p => String.append "bcrypt-" p) [] [sampleUser]
      ⟨"alice@example.com", "alice2", "hunter2"⟩ 2 5 =
      .error (.internalError .integrityError) :=
  ⟨(C3_register_duplicate_handling (fun p => String.append "bcrypt-" p)
      [sampleUser] [] ⟨"alice@example.com", "alice2", "hunter2"⟩ 2 5).1
      sampleUser (by decide),
    (C3_register_duplicate_handling (fun p => String.append "bcrypt-" p)
      [] [sampleUser] ⟨"alice@example.com", "alice2", "hunter2"⟩ 2 5).2.1
      (by decide) (by decide)⟩

/-- C9: `authenticate` yields the one failure signal `none` both when no
user carries the email and when password verification fails for an
existing user, and the `login` handler maps both to the single
authentication-failure outcome — the two cases are observably
indistinguishable. -/
theorem C9_auth_failure_single_outcome
    (verify : String → String → Bool) (mkToken : Nat → String)
    (db : List User) (e1 p1 e2 p2 : String)
    (h1 : get_user_by_email db e1 = none)
    (h2 : ∀ u, get_user_by_email db e2 = some u →
      verify p2 u.hashed_password = false) :
    authenticate_user verify db e1 p1 = none ∧
    authenticate_user verify db e2 p2 = none ∧
    authenticate_user verify db e1 p1 = authenticate_user verify db e2 p2 ∧
    login verify mkToken db e1 p1 = .authFailure ∧
    login verify mkToken db e2 p2 = .authFailure ∧
    login verify mkToken db e1 p1 = login verify mkToken db e2 p2 := by
  have a1 : authenticate_user verify db e1 p1 = none := by
    unfold authenticate_user
    rw [h1]
  have a2 : authenticate_user verify db e2 p2 = none := by
    unfold authenticate_user
    cases hg : get_user_by_email db e2 with
    | none => rfl
    | some u => simp [h2 u hg]
  have l1 : login verify mkToken db e1 p1 = .authFailure := by
    unfold login
    rw [a1]
  have l2 : login verify mkToken db e2 p2 = .authFailure := by
    unfold login
    rw [a2]
  exact ⟨a1, a2, a1.trans a2.symm, l1, l2, l1.trans l2.symm⟩

/-- Witness for C9 at a concrete directory: an unknown email and a known
email with a failing password verification produce the same `none` /
authentication-failure observables. -/
theorem C9_auth_failure_single_outcome_witness :
    authenticate_user (fun _ _ => false) [sampleUser]
      "bob@example.com" "pw" = none ∧
    authenticate_user (fun _ _ => false) [sampleUser]
      "alice@example.com" "pw" = none ∧
    authenticate_user (fun _ _ => false) [sampleUser]
      "bob@example.com" "pw" =
      authenticate_user (fun _ _ => false) [sampleUser]
        "alice@example.com" "pw" ∧
    login (fun _ _ => false) (fun n => toString n) [sampleUser]
      "bob@example.com" "pw" = .authFailure ∧
    login (fun _ _ => false) (fun n => toString n) [sampleUser]
      "alice@example.com" "pw" = .authFailure ∧
    login (fun _ _ => false) (fun n => toString n) [sampleUser]
      "bob@example.com" "pw" =
      login (fun _ _ => false) (fun n => toString n) [sampleUser]
        "alice@example.com" "pw" :=
  C9_auth_failure_single_outcome (fun _ _ => false) (fun n => toString n)
    [sampleUser] "bob@example.com" "pw" "alice@example.com" "pw"
    (by decide) (fun u _ => rfl)

end TaskMgmt
